import Mathlib

/-!
Shallow embedding of the feedback-collection service in `src/main.py`
(FastAPI handlers `submit_feedback`, `get_stats`, `reset_votes`,
`test_database`, and the pydantic model `VoteRequest`).

Stored documents are dictionaries whose fields hold dynamically typed
values; we model the value universe that the handlers distinguish:
integers, strings, datetimes (carried by their ISO-8601 rendering, the
only observation the code makes of them), and `None`.
-/

/-- Dynamically typed field value of a stored document, as distinguished by
the handlers in `main.py`: an `int`, a `str`, a `datetime` (represented by
the ISO-8601 string its `isoformat()` returns), or `None`. -/
inductive PyVal where
  | pyInt (n : Int)
  | pyStr (s : String)
  | pyDt (iso : String)
  | pyNone
  deriving DecidableEq, Repr

/-- Python `str(v)` for the values a record field can hold.  (`str` of an
`int` is its decimal rendering, `str(None)` is `"None"`; the datetime case
is never reached by the modelled code, which tests `isinstance(ts, datetime)`
first.) -/
def pyStrOf : PyVal → String
  | .pyInt n => toString n
  | .pyStr s => s
  | .pyDt iso => iso
  | .pyNone => "None"

/-- Decimal digits of a nonempty all-digit character list, `none` as soon
as a non-digit appears. -/
def parseDigitsAux (acc : Nat) : List Char → Option Nat
  | [] => some acc
  | c :: cs =>
    if c.isDigit then parseDigitsAux (10 * acc + (c.toNat - '0'.toNat)) cs
    else Option.none

/-- Parse a nonempty run of decimal digits; `none` on the empty list or on
any non-digit character. -/
def parseDigits : List Char → Option Nat
  | [] => Option.none
  | c :: cs => parseDigitsAux 0 (c :: cs)

/-- Drop leading and trailing whitespace, as Python `int(str)` does before
parsing. -/
def stripWS (l : List Char) : List Char :=
  ((l.dropWhile Char.isWhitespace).reverse.dropWhile Char.isWhitespace).reverse

/-- Python `int(s)` on a string: optional sign followed by decimal digits,
surrounding whitespace ignored; anything else raises `ValueError` (`none`). -/
def parsePyInt (s : String) : Option Int :=
  match stripWS s.data with
  | '-' :: rest => (parseDigits rest).map (fun n => -(n : Int))
  | '+' :: rest => (parseDigits rest).map (fun n => (n : Int))
  | rest => (parseDigits rest).map (fun n => (n : Int))

/-- Python `int(v)`: an `int` is returned as is; a `str` is parsed as a
signed decimal integer, raising `ValueError` on failure; `int(None)` and
`int(datetime)` raise `TypeError`.  `none` models the raised exception. -/
def pyToInt : PyVal → Option Int
  | .pyInt n => some n
  | .pyStr s => parsePyInt s
  | .pyDt _ => Option.none
  | .pyNone => Option.none

/-- A stored feedback document (`main.py` line 35 writes `score`,
`created_at`, `updated_at`); a field may be absent, as `get_stats` guards
with `d.get(...)`. -/
structure Record where
  score : Option PyVal := Option.none
  created_at : Option PyVal := Option.none
  updated_at : Option PyVal := Option.none
  deriving DecidableEq, Repr

/-- One element of the returned timeline: `{"timestamp": ts_str, "score": s}`
(`main.py` line 62). -/
structure TLEntry where
  timestamp : String
  score : Int
  deriving DecidableEq, Repr

/-- The error outcomes a handler can produce: a 422 request-validation
rejection (pydantic, before the handler body runs), an explicit
`HTTPException(status_code, detail)`, or an exception escaping the handler
(FastAPI turns it into a 500). -/
inductive ApiError where
  | validationError
  | httpException (statusCode : Nat) (detail : String)
  | uncaughtException
  deriving DecidableEq, Repr

/-- The value of `d.get("score", 0)` (`main.py` line 52). -/
def scoreVal (d : Record) : PyVal := d.score.getD (PyVal.pyInt 0)

/-- The value of `d.get("created_at")` (`main.py` line 56): `None` when the
key is absent. -/
def createdVal (d : Record) : PyVal := d.created_at.getD PyVal.pyNone

/-- Timestamp normalization of `main.py` lines 58-61: a `datetime` is
rendered by `isoformat()`, anything else by `str(...)`. -/
def tsRender : PyVal → String
  | .pyDt iso => iso
  | v => pyStrOf v

/-- Result of `int(d.get("score", 0))` (`main.py` line 52); `none` when the
coercion raises. -/
def scoreCoerce (d : Record) : Option Int := pyToInt (scoreVal d)

/-- The coerced score when the record passes the `1 <= s <= 5` range filter
(`main.py` line 53), `none` when it is skipped or its coercion raises. -/
def validScore (d : Record) : Option Int :=
  match scoreCoerce d with
  | some s => if 1 ≤ s ∧ s ≤ 5 then some s else Option.none
  | Option.none => Option.none

/-- The timeline entry a record contributes when it passes the filter. -/
def tlEntryOf (d : Record) : Option TLEntry :=
  (validScore d).map (fun s => ⟨tsRender (createdVal d), s⟩)

/-- Initial counts dictionary `{str(i): 0 for i in range(1, 6)}`
(`main.py` line 47), as an association list preserving insertion order. -/
def countsInit : List (String × Nat) :=
  [("1", 0), ("2", 0), ("3", 0), ("4", 0), ("5", 0)]

/-- The dictionary update `counts[k] += 1` (`main.py` line 54): the value at
key `k` is incremented (keys are always present, `k = str(s)` with
`1 <= s <= 5`). -/
def bump (k : String) (m : List (String × Nat)) : List (String × Nat) :=
  m.map (fun p => if p.1 = k then (p.1, p.2 + 1) else p)

/-- Value stored under key `k` in a counts dictionary (sum of all matching
entries; the key lists we build carry each key once). -/
def cnt (m : List (String × Nat)) (k : String) : Nat :=
  ((m.filter (fun p => p.1 = k)).map Prod.snd).sum

/-- Mutable state of the aggregation loop of `get_stats`
(`main.py` lines 47-49). -/
structure AggState where
  counts : List (String × Nat)
  total_score : Int
  timeline : List TLEntry
  deriving DecidableEq, Repr

/-- The state before the loop runs. -/
def initAgg : AggState := ⟨countsInit, 0, []⟩

/-- One iteration of the loop body (`main.py` lines 51-62): coerce the score
(`none` = the coercion raised and the whole request fails); within range,
bump the count, add to the running sum and append the timeline entry;
otherwise skip the record. -/
def stepDoc (st : AggState) (d : Record) : Option AggState :=
  match scoreCoerce d with
  | Option.none => Option.none
  | some s =>
    if 1 ≤ s ∧ s ≤ 5 then
      some ⟨bump (toString s) st.counts, st.total_score + s,
        st.timeline ++ [⟨tsRender (createdVal d), s⟩]⟩
    else some st

/-- The aggregation loop over all retrieved documents; a raised exception
(`none`) aborts the remaining iterations. -/
def aggDocs (st : AggState) : List Record → Option AggState
  | [] => some st
  | d :: ds => (stepDoc st d).bind (fun st1 => aggDocs st1 ds)

/-- Lexicographic comparison of character lists by code point: Python's
string ordering. -/
def lexLe : List Char → List Char → Bool
  | [], _ => true
  | _ :: _, [] => false
  | a :: as, b :: bs =>
    if a.toNat < b.toNat then true
    else if b.toNat < a.toNat then false
    else lexLe as bs

/-- Python `a <= b` on strings (lexicographic by code point). -/
def strLeB (a b : String) : Bool := lexLe a.data b.data

/-- The relation the timeline is sorted by: `key=lambda x: x["timestamp"]`
(`main.py` line 70), Python string comparison on the timestamp field. -/
def tlLe (a b : TLEntry) : Prop := strLeB a.timestamp b.timestamp = true

instance : DecidableRel tlLe := fun a b => instDecidableEqBool (strLeB a.timestamp b.timestamp) true

instance : IsTotal TLEntry tlLe := by
  have H : ∀ as bs : List Char, lexLe as bs = true ∨ lexLe bs as = true := by
    intro as
    induction as with
    | nil => intro bs; left; rfl
    | cons a as ih =>
      intro bs
      cases bs with
      | nil => right; rfl
      | cons b bs =>
        rcases Nat.lt_trichotomy a.toNat b.toNat with h | h | h
        · left; simp [lexLe, h]
        · simp [lexLe, h, Nat.lt_irrefl]; exact ih bs
        · right; simp [lexLe, h]
  exact ⟨fun a b => H a.timestamp.data b.timestamp.data⟩

instance : IsTrans TLEntry tlLe := by
  have H : ∀ as bs cs : List Char, lexLe as bs = true → lexLe bs cs = true →
      lexLe as cs = true := by
    intro as
    induction as with
    | nil => intro bs cs h1 h2; rfl
    | cons a as ih =>
      intro bs cs h1 h2
      cases bs with
      | nil => simp [lexLe] at h1
      | cons b bs =>
        cases cs with
        | nil => simp [lexLe] at h2
        | cons c cs =>
          simp only [lexLe] at h1 h2 ⊢
          rcases Nat.lt_trichotomy a.toNat b.toNat with hab | hab | hab <;>
            rcases Nat.lt_trichotomy b.toNat c.toNat with hbc | hbc | hbc <;>
            simp_all [Nat.lt_irrefl] <;> first
              | omega
              | exact ih bs cs h1 h2
  exact ⟨fun a b c hab hbc => H a.timestamp.data b.timestamp.data c.timestamp.data hab hbc⟩

/-- Python's `sorted(timeline, key=...)` is a stable sort by the key;
modelled by the stable insertion sort on the same relation. -/
def sortTimeline (tl : List TLEntry) : List TLEntry := List.insertionSort tlLe tl

/-- The response body of `GET /api/stats` (`main.py` lines 66-71). -/
structure StatsResult where
  counts : List (String × Nat)
  total_votes : Nat
  total_score : Int
  timeline : List TLEntry
  deriving DecidableEq, Repr

/-- Handler of `GET /api/stats` (`main.py` lines 40-71).  The database handle
being `None` raises `HTTPException(500)`; a score that `int()` cannot coerce
raises out of the handler; otherwise the aggregated summary is returned with
the timeline sorted ascending by its timestamp string. -/
def get_stats (dbState : Option (List Record)) : Except ApiError StatsResult :=
  match dbState with
  | Option.none => Except.error (ApiError.httpException 500 "Database not configured")
  | some docs =>
    match aggDocs initAgg docs with
    | Option.none => Except.error ApiError.uncaughtException
    | some st =>
      Except.ok ⟨st.counts, (st.counts.map Prod.snd).sum, st.total_score,
        sortTimeline st.timeline⟩

/-- Request validation of `VoteRequest` (`main.py` lines 21-22): the pydantic
field declaration `score: int = Field(..., ge=1, le=5)` accepts an integer in
the inclusive range 1-5 and rejects any other value with a 422 validation
error before the handler body runs. -/
def parseScore : PyVal → Option Int
  | .pyInt n => if 1 ≤ n ∧ n ≤ 5 then some n else Option.none
  | _ => Option.none

/-- Handler of `POST /api/feedback` (`main.py` lines 30-37) together with the
framework's request validation.  `now` is the single `datetime.now(timezone.utc)`
sample of line 34.  Returns the response and the resulting stored collection. -/
def submit_feedback (dbState : Option (List Record)) (body : PyVal) (now : PyVal) :
    Except ApiError (Bool × String) × Option (List Record) :=
  match parseScore body with
  | Option.none => (Except.error ApiError.validationError, dbState)
  | some s =>
    match dbState with
    | Option.none =>
      (Except.error (ApiError.httpException 500 "Database not configured"), dbState)
    | some store =>
      (Except.ok (true, "Thanks for your feedback!"),
        some (store ++ [⟨some (PyVal.pyInt s), some now, some now⟩]))

/-- Handler of `DELETE /api/reset` (`main.py` lines 74-79): with a configured
database every document of the collection is deleted. -/
def reset_votes (dbState : Option (List Record)) :
    Except ApiError Bool × Option (List Record) :=
  match dbState with
  | Option.none =>
    (Except.error (ApiError.httpException 500 "Database not configured"), dbState)
  | some _ => (Except.ok true, some [])

/-- Python string slicing `s[:50]` (by code points). -/
def strTake50 (s : String) : String := ⟨s.data.take 50⟩

/-- What the `try` block of `test_database` can observe: the import failing,
some other exception escaping the block, or the imported handle (`None` or a
live handle). -/
inductive DBProbe where
  | importError
  | otherError (msg : String)
  | imported (h : Option (Option String × Except String (List String)))
  deriving Repr

/-- The diagnostic object returned by `GET /test` (`main.py` lines 85-92). -/
structure DiagResponse where
  backend : String
  database : String
  database_url : Option String
  database_name : Option String
  connection_status : String
  collections : List String
  deriving DecidableEq, Repr

/-- Handler of `GET /test` (`main.py` lines 82-121).  A live handle carries
its optional `name` attribute and the outcome of `list_collection_names()`
(either the list or the message of the exception it raised); `urlSet` and
`nameSet` say whether `DATABASE_URL` / `DATABASE_NAME` are set in the
environment. -/
def test_database (probe : DBProbe) (urlSet nameSet : Bool) : DiagResponse :=
  let r0 : DiagResponse :=
    ⟨"✅ Running", "❌ Not Available", Option.none, Option.none, "Not Connected", []⟩
  let r1 :=
    match probe with
    | .importError =>
      { r0 with database := "❌ Database module not found (run enable-database first)" }
    | .otherError e => { r0 with database := "❌ Error: " ++ strTake50 e }
    | .imported Option.none => { r0 with database := "⚠️  Available but not initialized" }
    | .imported (some (nm, listed)) =>
      let rA := { r0 with
                  database := "✅ Available"
                  database_url := some "✅ Configured"
                  database_name := some (nm.getD "✅ Connected")
                  connection_status := "Connected" }
      match listed with
      | Except.ok cols =>
        { rA with collections := cols.take 10, database := "✅ Connected & Working" }
      | Except.error e =>
        { rA with database := "⚠️  Connected but Error: " ++ strTake50 e }
  { r1 with
    database_url := some (if urlSet then "✅ Set" else "❌ Not Set")
    database_name := some (if nameSet then "✅ Set" else "❌ Not Set") }

instance instDecEqExcept {e a : Type} [DecidableEq e] [DecidableEq a] :
    DecidableEq (Except e a) := fun x y =>
  match x, y with
  | Except.ok u, Except.ok v =>
    if h : u = v then Decidable.isTrue (congrArg Except.ok h)
    else Decidable.isFalse (fun hh => h (Except.ok.inj hh))
  | Except.ok _, Except.error _ => Decidable.isFalse (fun hh => Except.noConfusion hh)
  | Except.error _, Except.ok _ => Decidable.isFalse (fun hh => Except.noConfusion hh)
  | Except.error u, Except.error v =>
    if h : u = v then Decidable.isTrue (congrArg Except.error h)
    else Decidable.isFalse (fun hh => h (Except.error.inj hh))

/-- The key list of the counts dictionary, in insertion order. -/
def keys15 : List String := ["1", "2", "3", "4", "5"]

/-- A record that passed the range filter of `main.py` line 53. -/
def isValidRec (d : Record) : Bool := (validScore d).isSome

/-- First capture of `datetime.now(timezone.utc)` in the `[3, 5, 3]`
submission scenario. -/
def tSubA : PyVal := PyVal.pyDt "2024-05-01T10:00:00+00:00"

/-- Second capture of the current time in the scenario. -/
def tSubB : PyVal := PyVal.pyDt "2024-05-01T11:00:00+00:00"

/-- Third capture of the current time in the scenario. -/
def tSubC : PyVal := PyVal.pyDt "2024-05-01T12:00:00+00:00"

/-- The stored collection after submitting the scores 3, 5 and 3 in that
order against an initially empty configured database. -/
def scenarioStore : Option (List Record) :=
  (submit_feedback
    ((submit_feedback
      ((submit_feedback (some []) (PyVal.pyInt 3) tSubA).2)
      (PyVal.pyInt 5) tSubB).2)
    (PyVal.pyInt 3) tSubC).2

/-! Lemmas about the counts dictionary. -/

theorem bump_map_fst (k : String) (m : List (String × Nat)) :
    (bump k m).map Prod.fst = m.map Prod.fst := by
  induction m with
  | nil => rfl
  | cons p m ih =>
    simp only [bump, List.map_cons] at ih ⊢
    by_cases h : p.1 = k <;> simp [h, ih]

theorem bump_snd_sum (k : String) (m : List (String × Nat)) :
    ((bump k m).map Prod.snd).sum
      = (m.map Prod.snd).sum + (m.map Prod.fst).count k := by
  induction m with
  | nil => rfl
  | cons p m ih =>
    by_cases h : p.1 = k <;>
      simp [bump, List.count_cons, h, ih] at * <;> omega

theorem cnt_cons (p : String × Nat) (m : List (String × Nat)) (j : String) :
    cnt (p :: m) j = (if p.1 = j then p.2 else 0) + cnt m j := by
  by_cases h : p.1 = j <;> simp [cnt, List.filter_cons, h]

theorem cnt_bump (k j : String) (m : List (String × Nat)) :
    cnt (bump k m) j
      = cnt m j + (if j = k then (m.map Prod.fst).count j else 0) := by
  induction m with
  | nil => simp [bump, cnt]
  | cons p m ih =>
    obtain ⟨a, b⟩ := p
    have hb : bump k ((a, b) :: m)
        = (if a = k then (a, b + 1) else (a, b)) :: bump k m := by
      simp [bump]
    rw [hb]
    rcases eq_or_ne a k with hak | hak
    · subst hak
      rw [if_pos rfl, cnt_cons, cnt_cons, ih]
      simp only [List.map_cons, List.count_cons, beq_iff_eq]
      rcases eq_or_ne j a with haj | haj
      · subst haj
        simp
        omega
      · simp [haj, Ne.symm haj]
    · rw [if_neg hak, cnt_cons, cnt_cons, ih]
      simp only [List.map_cons, List.count_cons, beq_iff_eq]
      rcases eq_or_ne j k with hjk | hjk
      · subst hjk
        have haj : a ≠ j := hak
        simp [haj]
      · simp [hjk]

theorem cnt_zero (m : List (String × Nat)) (h : ∀ p ∈ m, p.2 = 0) (j : String) :
    cnt m j = 0 := by
  induction m with
  | nil => rfl
  | cons p m ih =>
    have hp := h p (List.mem_cons_self p m)
    have ht := ih (fun q hq => h q (List.mem_cons_of_mem p hq))
    by_cases hj : p.1 = j <;> simp [cnt, List.filter_cons, hj, hp] at ht ⊢ <;>
      simp_all [cnt]

/-! Case analysis of one loop iteration. -/

theorem validScore_bounds {d : Record} {s : Int} (h : validScore d = some s) :
    1 ≤ s ∧ s ≤ 5 := by
  unfold validScore at h
  cases hc : scoreCoerce d with
  | none => rw [hc] at h; cases h
  | some t =>
    rw [hc] at h
    by_cases hb : 1 ≤ t ∧ t ≤ 5
    · simp [hb] at h; omega
    · simp [hb] at h

theorem stepDoc_of_valid {d : Record} {s : Int} (st : AggState)
    (h : validScore d = some s) :
    stepDoc st d = some ⟨bump (toString s) st.counts, st.total_score + s,
      st.timeline ++ [⟨tsRender (createdVal d), s⟩]⟩ := by
  unfold validScore at h
  unfold stepDoc
  cases hc : scoreCoerce d with
  | none => rw [hc] at h; cases h
  | some t =>
    rw [hc] at h
    by_cases hb : 1 ≤ t ∧ t ≤ 5
    · simp only [hb, if_true] at h ⊢
      injection h with h
      subst h
      simp [hb]
    · simp [hb] at h

theorem stepDoc_of_skip {d : Record} {t : Int} (st : AggState)
    (hc : scoreCoerce d = some t) (hv : validScore d = Option.none) :
    stepDoc st d = some st := by
  unfold validScore at hv
  rw [hc] at hv
  unfold stepDoc
  rw [hc]
  by_cases hb : 1 ≤ t ∧ t ≤ 5
  · simp [hb] at hv
  · simp [hb]

theorem stepDoc_none {d : Record} (st : AggState) (hc : scoreCoerce d = Option.none) :
    stepDoc st d = Option.none := by
  unfold stepDoc
  rw [hc]

theorem count_keys15 {s : Int} (h1 : 1 ≤ s) (h5 : s ≤ 5) :
    keys15.count (toString s) = 1 := by
  interval_cases s <;> decide

theorem toString_inj_15 {s j : Int} (h1 : 1 ≤ s) (h5 : s ≤ 5)
    (g1 : 1 ≤ j) (g5 : j ≤ 5) : (toString s = toString j) ↔ s = j := by
  interval_cases s <;> interval_cases j <;> decide

theorem tlEntryOf_of_valid {d : Record} {s : Int} (hv : validScore d = some s) :
    tlEntryOf d = some ⟨tsRender (createdVal d), s⟩ := by
  simp [tlEntryOf, hv]

theorem tlEntryOf_of_skip {d : Record} (hv : validScore d = Option.none) :
    tlEntryOf d = Option.none := by
  simp [tlEntryOf, hv]

theorem aggDocs_spec (docs : List Record) : ∀ st st' : AggState,
    st.counts.map Prod.fst = keys15 →
    aggDocs st docs = some st' →
    st'.counts.map Prod.fst = keys15
    ∧ st'.timeline = st.timeline ++ docs.filterMap tlEntryOf
    ∧ st'.total_score = st.total_score + (docs.filterMap validScore).sum
    ∧ (st'.counts.map Prod.snd).sum
        = (st.counts.map Prod.snd).sum + (docs.filterMap validScore).length
    ∧ (∀ j : Int, 1 ≤ j → j ≤ 5 →
        cnt st'.counts (toString j)
          = cnt st.counts (toString j) + (docs.filterMap validScore).count j) := by
  induction docs with
  | nil =>
    intro st st' hk h
    injection h with h
    subst h
    simp [hk]
  | cons d ds ih =>
    intro st st' hk h
    rw [aggDocs] at h
    cases hv : validScore d with
    | some s =>
      obtain ⟨hs1, hs5⟩ := validScore_bounds hv
      rw [stepDoc_of_valid st hv, Option.some_bind] at h
      have hk1 : (AggState.mk (bump (toString s) st.counts) (st.total_score + s)
          (st.timeline ++ [⟨tsRender (createdVal d), s⟩])).counts.map Prod.fst = keys15 := by
        show (bump (toString s) st.counts).map Prod.fst = keys15
        rw [bump_map_fst]
        exact hk
      obtain ⟨k1, t1, sc1, v1, c1⟩ := ih _ st' hk1 h
      dsimp only at t1 sc1 v1 c1
      refine ⟨k1, ?_, ?_, ?_, ?_⟩
      · rw [t1, List.filterMap_cons, tlEntryOf_of_valid hv]
        simp
      · rw [sc1, List.filterMap_cons, hv]
        simp only [List.sum_cons]
        omega
      · rw [v1, bump_snd_sum, hk, count_keys15 hs1 hs5, List.filterMap_cons, hv]
        simp only [List.length_cons]
        omega
      · intro j hj1 hj5
        rw [c1 j hj1 hj5, cnt_bump, hk, List.filterMap_cons, hv]
        simp only [List.count_cons, beq_iff_eq]
        rcases eq_or_ne s j with hsj | hsj
        · subst hsj
          rw [if_pos ((toString_inj_15 hj1 hj5 hj1 hj5).mpr rfl), if_pos rfl,
            count_keys15 hj1 hj5]
          omega
        · rw [if_neg (fun hh => hsj ((toString_inj_15 hj1 hj5 hs1 hs5).mp hh).symm),
            if_neg hsj]
          omega
    | none =>
      cases hc : scoreCoerce d with
      | none =>
        rw [stepDoc_none st hc, Option.none_bind] at h
        cases h
      | some t =>
        rw [stepDoc_of_skip st hc hv, Option.some_bind] at h
        obtain ⟨k1, t1, sc1, v1, c1⟩ := ih st st' hk h
        rw [List.filterMap_cons, List.filterMap_cons, tlEntryOf_of_skip hv, hv]
        exact ⟨k1, t1, sc1, v1, c1⟩

theorem initAgg_keys : initAgg.counts.map Prod.fst = keys15 := by decide

theorem aggDocs_some_iff (docs : List Record) : ∀ st : AggState,
    (∃ st', aggDocs st docs = some st')
      ↔ ∀ d ∈ docs, (scoreCoerce d).isSome = true := by
  induction docs with
  | nil => intro st; simp [aggDocs]
  | cons d ds ih =>
    intro st
    rw [aggDocs]
    cases hc : scoreCoerce d with
    | none =>
      rw [stepDoc_none st hc, Option.none_bind]
      simp [hc]
    | some t =>
      cases hv : validScore d with
      | some s =>
        rw [stepDoc_of_valid st hv, Option.some_bind]
        simp [ih, List.forall_mem_cons, hc]
      | none =>
        rw [stepDoc_of_skip st hc hv, Option.some_bind]
        simp [ih, List.forall_mem_cons, hc]

theorem aggDocs_filter (docs : List Record) : ∀ st : AggState,
    (∀ d ∈ docs, (scoreCoerce d).isSome = true) →
    aggDocs st docs = aggDocs st (docs.filter isValidRec) := by
  induction docs with
  | nil => intro st _; rfl
  | cons d ds ih =>
    intro st h
    have hds : ∀ d' ∈ ds, (scoreCoerce d').isSome = true :=
      fun d' hd' => h d' (List.mem_cons_of_mem d hd')
    cases hv : validScore d with
    | some s =>
      have hval : isValidRec d = true := by simp [isValidRec, hv]
      rw [List.filter_cons_of_pos hval, aggDocs, aggDocs,
        stepDoc_of_valid st hv, Option.some_bind, Option.some_bind, ih _ hds]
    | none =>
      have hd := h d (List.mem_cons_self d ds)
      obtain ⟨t, hc⟩ := Option.isSome_iff_exists.mp hd
      have hval : isValidRec d = false := by simp [isValidRec, hv]
      rw [List.filter_cons_of_neg (by simp [hval]), aggDocs,
        stepDoc_of_skip st hc hv, Option.some_bind, ih _ hds]

theorem get_stats_ok {docs : List Record} {st : StatsResult}
    (h : get_stats (some docs) = Except.ok st) :
    ∃ ast, aggDocs initAgg docs = some ast
      ∧ st = ⟨ast.counts, (ast.counts.map Prod.snd).sum, ast.total_score,
          sortTimeline ast.timeline⟩ := by
  simp only [get_stats] at h
  cases hagg : aggDocs initAgg docs with
  | none => rw [hagg] at h; cases h
  | some ast =>
    rw [hagg] at h
    injection h with h
    exact ⟨ast, rfl, h.symm⟩

theorem length_tlEntryOf (docs : List Record) :
    (docs.filterMap tlEntryOf).length = (docs.filterMap validScore).length := by
  induction docs with
  | nil => rfl
  | cons d ds ih =>
    cases hv : validScore d with
    | none => simp [List.filterMap_cons, tlEntryOf_of_skip hv, hv, ih]
    | some s => simp [List.filterMap_cons, tlEntryOf_of_valid hv, hv, ih]

theorem length_filter_valid (docs : List Record) :
    (docs.filterMap validScore).length = (docs.filter isValidRec).length := by
  induction docs with
  | nil => rfl
  | cons d ds ih =>
    cases hv : validScore d with
    | none => simp [List.filterMap_cons, List.filter_cons, hv, isValidRec, ih]
    | some s => simp [List.filterMap_cons, List.filter_cons, hv, isValidRec, ih]

theorem get_stats_spec {docs : List Record} {st : StatsResult}
    (h : get_stats (some docs) = Except.ok st) :
    st.counts.map Prod.fst = keys15
    ∧ st.total_votes = (docs.filterMap validScore).length
    ∧ st.total_score = (docs.filterMap validScore).sum
    ∧ st.timeline.Perm (docs.filterMap tlEntryOf)
    ∧ List.Pairwise tlLe st.timeline
    ∧ (∀ j : Int, 1 ≤ j → j ≤ 5 →
        cnt st.counts (toString j) = (docs.filterMap validScore).count j) := by
  obtain ⟨ast, hagg, hst⟩ := get_stats_ok h
  obtain ⟨k1, t1, sc1, v1, c1⟩ := aggDocs_spec docs initAgg ast initAgg_keys hagg
  subst hst
  have ht : ast.timeline = docs.filterMap tlEntryOf := by
    simpa [initAgg] using t1
  refine ⟨k1, ?_, ?_, ?_, ?_, ?_⟩
  · simpa [initAgg, countsInit] using v1
  · simpa [initAgg] using sc1
  · show (sortTimeline ast.timeline).Perm _
    rw [sortTimeline, ht]
    exact List.perm_insertionSort tlLe _
  · exact List.sorted_insertionSort tlLe ast.timeline
  · intro j hj1 hj5
    have hc := c1 j hj1 hj5
    have hz : cnt initAgg.counts (toString j) = 0 :=
      cnt_zero _ (by decide) _
    simpa [hz] using hc

theorem filterMap_validScore_mem {docs : List Record} {x : Int}
    (hx : x ∈ docs.filterMap validScore) : 1 ≤ x ∧ x ≤ 5 := by
  obtain ⟨d, _, hd⟩ := List.mem_filterMap.mp hx
  exact validScore_bounds hd

theorem sum_count_15 (l : List Int) (h : ∀ x ∈ l, 1 ≤ x ∧ x ≤ 5) :
    l.sum = 1 * (l.count 1 : Int) + 2 * (l.count 2 : Int) + 3 * (l.count 3 : Int)
      + 4 * (l.count 4 : Int) + 5 * (l.count 5 : Int) := by
  induction l with
  | nil => simp
  | cons x xs ih =>
    obtain ⟨hx1, hx5⟩ := h x (List.mem_cons_self x xs)
    have hxs := ih (fun y hy => h y (List.mem_cons_of_mem x hy))
    simp only [List.sum_cons, List.count_cons, beq_iff_eq]
    interval_cases x <;> simp_all <;> omega

/-- Truncation to 50 characters never yields a longer string. -/
theorem strTake50_length (s : String) : (strTake50 s).length ≤ 50 :=
  List.length_take_le 50 s.data

/-- Claim C1, counterexample: the claim says a record whose score is
non-coercible to integer is silently skipped without the whole request
erroring; in the code `int(d.get("score", 0))` raises on such a record and
the exception escapes `get_stats`, so a single record carrying the string
"abc" as its score makes the whole request error. -/
theorem C1_counterexample :
    get_stats (some [{ score := some (PyVal.pyStr "abc") }])
      = Except.error ApiError.uncaughtException := by decide

/-- Claim C1, amended: records whose score is missing or whose coerced
score is outside 1-5 are silently skipped — whenever every stored score is
coercible, `get_stats` succeeds and returns exactly the statistics of the
remaining valid records; a score that is non-coercible, however, errors the
whole request (see the counterexample). -/
theorem C1_skip_amended (docs : List Record)
    (h : ∀ d ∈ docs, (scoreCoerce d).isSome = true) :
    (∃ st, get_stats (some docs) = Except.ok st)
    ∧ get_stats (some docs) = get_stats (some (docs.filter isValidRec)) := by
  constructor
  · obtain ⟨st1, hst⟩ := (aggDocs_some_iff docs initAgg).mpr h
    refine ⟨⟨st1.counts, (st1.counts.map Prod.snd).sum, st1.total_score,
      sortTimeline st1.timeline⟩, ?_⟩
    simp [get_stats, hst]
  · simp only [get_stats]
    rw [aggDocs_filter docs initAgg h]

/-- Claim C1, witness: a store holding a record with a missing score, one
with the out-of-range score 7 and one valid record is aggregated without
error, and as if the two malformed records were filtered away. -/
theorem C1_witness :
    (∃ st, get_stats (some [⟨Option.none, Option.none, Option.none⟩,
        ⟨some (PyVal.pyInt 7), Option.none, Option.none⟩,
        ⟨some (PyVal.pyInt 2), some (PyVal.pyStr "2024-03-01"), Option.none⟩])
      = Except.ok st)
    ∧ get_stats (some [⟨Option.none, Option.none, Option.none⟩,
        ⟨some (PyVal.pyInt 7), Option.none, Option.none⟩,
        ⟨some (PyVal.pyInt 2), some (PyVal.pyStr "2024-03-01"), Option.none⟩])
      = get_stats (some ([⟨Option.none, Option.none, Option.none⟩,
        ⟨some (PyVal.pyInt 7), Option.none, Option.none⟩,
        ⟨some (PyVal.pyInt 2), some (PyVal.pyStr "2024-03-01"), Option.none⟩].filter isValidRec)) :=
  C1_skip_amended _ (by decide)

/-- Claim C2: aggregating the record collection produced by submitting
exactly the scores 3, 5 and 3 (each persisted with a datetime timestamp)
returns counts 1:0, 2:0, 3:2, 4:0, 5:1, total_votes 3, total_score 11, and
a timeline of exactly 3 entries sorted ascending by timestamp. -/
theorem C2_scenario :
    get_stats scenarioStore
      = Except.ok ⟨[("1", 0), ("2", 0), ("3", 2), ("4", 0), ("5", 1)], 3, 11,
          [⟨"2024-05-01T10:00:00+00:00", 3⟩, ⟨"2024-05-01T11:00:00+00:00", 5⟩,
            ⟨"2024-05-01T12:00:00+00:00", 3⟩]⟩
    ∧ List.Pairwise tlLe
        [⟨"2024-05-01T10:00:00+00:00", 3⟩, ⟨"2024-05-01T11:00:00+00:00", 5⟩,
          (⟨"2024-05-01T12:00:00+00:00", 3⟩ : TLEntry)] := by decide

/-- Claim C3: aggregating an empty collection returns all five counts
zero, total_votes 0, total_score 0 and an empty timeline, raising no
error. -/
theorem C3_empty :
    get_stats (some [])
      = Except.ok ⟨[("1", 0), ("2", 0), ("3", 0), ("4", 0), ("5", 0)], 0, 0, []⟩ := by decide

/-- Claim C4: for every input collection, the total_votes returned by
get_stats equals the sum of the five per-score counts and also equals the
number of records that passed the range filter. -/
theorem C4_total_votes (docs : List Record) (st : StatsResult)
    (h : get_stats (some docs) = Except.ok st) :
    st.total_votes = (st.counts.map Prod.snd).sum
    ∧ st.total_votes = (docs.filter isValidRec).length := by
  obtain ⟨_, hv, _, _, _, _⟩ := get_stats_spec h
  obtain ⟨ast, hagg, hst⟩ := get_stats_ok h
  subst hst
  exact ⟨rfl, by rw [← length_filter_valid]; simpa using hv⟩

/-- Claim C4, witness at a two-record store with one valid record. -/
theorem C4_witness :
    (⟨[("1", 0), ("2", 0), ("3", 0), ("4", 1), ("5", 0)], 1, 4,
        [⟨"None", 4⟩]⟩ : StatsResult).total_votes
      = ((⟨[("1", 0), ("2", 0), ("3", 0), ("4", 1), ("5", 0)], 1, 4,
        [⟨"None", 4⟩]⟩ : StatsResult).counts.map Prod.snd).sum
    ∧ (⟨[("1", 0), ("2", 0), ("3", 0), ("4", 1), ("5", 0)], 1, 4,
        [⟨"None", 4⟩]⟩ : StatsResult).total_votes
      = ([⟨some (PyVal.pyInt 4), Option.none, Option.none⟩,
          ⟨some (PyVal.pyInt 0), Option.none, Option.none⟩].filter isValidRec).length :=
  C4_total_votes [⟨some (PyVal.pyInt 4), Option.none, Option.none⟩,
    ⟨some (PyVal.pyInt 0), Option.none, Option.none⟩] _ (by decide)

/-- Claim C5: for every input collection, in whatever order the records
are retrieved, the timeline returned by get_stats is sorted ascending by
its string timestamp field. -/
theorem C5_sorted (docs : List Record) (st : StatsResult)
    (h : get_stats (some docs) = Except.ok st) :
    List.Pairwise tlLe st.timeline :=
  (get_stats_spec h).2.2.2.2.1

/-- Claim C5, witness: two records retrieved in reverse chronological
order still yield a timeline sorted ascending. -/
theorem C5_witness :
    List.Pairwise tlLe (⟨[("1", 1), ("2", 1), ("3", 0), ("4", 0), ("5", 0)], 2, 3,
      [⟨"2024-01-05T00:00:00+00:00", 1⟩, ⟨"2024-02-05T00:00:00+00:00", 2⟩]⟩
        : StatsResult).timeline :=
  C5_sorted [⟨some (PyVal.pyInt 2), some (PyVal.pyDt "2024-02-05T00:00:00+00:00"), Option.none⟩,
    ⟨some (PyVal.pyInt 1), some (PyVal.pyDt "2024-01-05T00:00:00+00:00"), Option.none⟩]
    _ (by decide)

/-- Claim C6: a submitted score that is not an integer or lies outside
1-5 is rejected with a validation error before any persistence attempt,
leaving the store unchanged; an integer score in 1-5 succeeds and persists
exactly one new record. -/
theorem C6_validation (body now : PyVal) (store : List Record) :
    ((∀ n : Int, body ≠ PyVal.pyInt n ∨ ¬(1 ≤ n ∧ n ≤ 5)) →
      submit_feedback (some store) body now
        = (Except.error ApiError.validationError, some store))
    ∧ (∀ n : Int, body = PyVal.pyInt n → 1 ≤ n → n ≤ 5 →
      submit_feedback (some store) body now
        = (Except.ok (true, "Thanks for your feedback!"),
            some (store ++ [⟨some (PyVal.pyInt n), some now, some now⟩]))) := by
  constructor
  · intro hrej
    have hp : parseScore body = Option.none := by
      cases body with
      | pyInt n =>
        rcases hrej n with hne | hnr
        · exact absurd rfl hne
        · simp [parseScore, hnr]
      | pyStr s => rfl
      | pyDt iso => rfl
      | pyNone => rfl
    simp [submit_feedback, hp]
  · intro n hb h1 h5
    subst hb
    simp [submit_feedback, parseScore, h1, h5]

/-- Claim C6, witness: the non-integer body "x" is rejected leaving the
store empty, while the score 3 appends exactly one record. -/
theorem C6_witness :
    submit_feedback (some []) (PyVal.pyStr "x") (PyVal.pyDt "2024-01-01T00:00:00+00:00")
      = (Except.error ApiError.validationError, some [])
    ∧ submit_feedback (some []) (PyVal.pyInt 3) (PyVal.pyDt "2024-01-01T00:00:00+00:00")
      = (Except.ok (true, "Thanks for your feedback!"),
          some ([] ++ [⟨some (PyVal.pyInt 3), some (PyVal.pyDt "2024-01-01T00:00:00+00:00"),
            some (PyVal.pyDt "2024-01-01T00:00:00+00:00")⟩])) :=
  ⟨(C6_validation (PyVal.pyStr "x") (PyVal.pyDt "2024-01-01T00:00:00+00:00") []).1
      (fun n => Or.inl (fun hh => PyVal.noConfusion hh)),
    (C6_validation (PyVal.pyInt 3) (PyVal.pyDt "2024-01-01T00:00:00+00:00") []).2 3 rfl
      (by decide) (by decide)⟩

/-- Claim C7: with an unconfigured database handle, get_stats,
submit_feedback (for any validated body) and reset_votes all fail with the
500 "Database not configured" error and perform no read, write or
delete — the store stays as it was. -/
theorem C7_db_none :
    get_stats Option.none
        = Except.error (ApiError.httpException 500 "Database not configured")
    ∧ (∀ body now : PyVal, ∀ s : Int, parseScore body = some s →
        submit_feedback Option.none body now
          = (Except.error (ApiError.httpException 500 "Database not configured"),
              Option.none))
    ∧ reset_votes Option.none
        = (Except.error (ApiError.httpException 500 "Database not configured"),
            Option.none) := by
  refine ⟨rfl, ?_, rfl⟩
  intro body now s hp
  simp [submit_feedback, hp]

/-- Claim C7, witness at the validated body score 2. -/
theorem C7_witness :
    submit_feedback Option.none (PyVal.pyInt 2) PyVal.pyNone
      = (Except.error (ApiError.httpException 500 "Database not configured"),
          Option.none) :=
  C7_db_none.2.1 (PyVal.pyInt 2) PyVal.pyNone 2 (by decide)

/-- Claim C8: a stats request succeeds exactly when every stored score is
coercible — the type of the timestamp never raises — and every timeline
entry of a successful result carries the timestamp normalization
`tsRender` of some record's created_at field: the ISO-8601 rendering for a
datetime value, the plain string coercion otherwise. -/
theorem C8_timestamps (docs : List Record) :
    ((∃ st, get_stats (some docs) = Except.ok st)
      ↔ ∀ d ∈ docs, (scoreCoerce d).isSome = true)
    ∧ (∀ st, get_stats (some docs) = Except.ok st →
        ∀ e ∈ st.timeline, ∃ d ∈ docs, validScore d = some e.score
          ∧ e.timestamp = tsRender (createdVal d)) := by
  constructor
  · constructor
    · rintro ⟨st, hst⟩
      obtain ⟨ast, hagg, _⟩ := get_stats_ok hst
      exact (aggDocs_some_iff docs initAgg).mp ⟨ast, hagg⟩
    · intro h
      obtain ⟨ast, hagg⟩ := (aggDocs_some_iff docs initAgg).mpr h
      refine ⟨⟨ast.counts, (ast.counts.map Prod.snd).sum, ast.total_score,
        sortTimeline ast.timeline⟩, ?_⟩
      simp [get_stats, hagg]
  · intro st hst e he
    obtain ⟨_, _, _, hperm, _, _⟩ := get_stats_spec hst
    have hmem : e ∈ docs.filterMap tlEntryOf := hperm.mem_iff.mp he
    obtain ⟨d, hd, hde⟩ := List.mem_filterMap.mp hmem
    unfold tlEntryOf at hde
    cases hv : validScore d with
    | none => rw [hv] at hde; cases hde
    | some s =>
      rw [hv] at hde
      simp only [Option.map_some'] at hde
      injection hde with hde
      subst hde
      exact ⟨d, hd, hv, rfl⟩

/-- Claim C8, witness: one valid record with a datetime created_at whose
timeline entry carries its ISO-8601 rendering. -/
theorem C8_witness :
    ∃ d ∈ [(⟨some (PyVal.pyInt 5), some (PyVal.pyDt "2024-01-02T03:04:05+00:00"),
        Option.none⟩ : Record)],
      validScore d = some (⟨"2024-01-02T03:04:05+00:00", 5⟩ : TLEntry).score
      ∧ (⟨"2024-01-02T03:04:05+00:00", 5⟩ : TLEntry).timestamp = tsRender (createdVal d) :=
  (C8_timestamps _).2
    ⟨[("1", 0), ("2", 0), ("3", 0), ("4", 0), ("5", 1)], 1, 5,
      [⟨"2024-01-02T03:04:05+00:00", 5⟩]⟩
    (by decide) ⟨"2024-01-02T03:04:05+00:00", 5⟩ (by decide)

/-- Claim C9: the diagnostics endpoint always returns a diagnostic
object — for every import outcome, handle state and listing outcome — with
any caught error reported in a database status string of bounded length
(the exception text truncated to 50 characters) and at most 10 collection
names. -/
theorem C9_diagnostics (probe : DBProbe) (urlSet nameSet : Bool) :
    (test_database probe urlSet nameSet).collections.length ≤ 10
    ∧ (test_database probe urlSet nameSet).database.length ≤ 80 := by
  cases probe with
  | importError => refine ⟨?_, ?_⟩ <;> (dsimp only [test_database]; decide)
  | otherError e =>
    refine ⟨by dsimp only [test_database]; decide, ?_⟩
    have h1 := strTake50_length e
    dsimp only [test_database]
    rw [String.length_append]
    have h2 : ("❌ Error: ").length ≤ 30 := by decide
    omega
  | imported h =>
    cases h with
    | none => refine ⟨?_, ?_⟩ <;> (dsimp only [test_database]; decide)
    | some pr =>
      obtain ⟨nm, listed⟩ := pr
      cases listed with
      | ok cols =>
        refine ⟨?_, by dsimp only [test_database]; decide⟩
        dsimp only [test_database]
        exact List.length_take_le 10 cols
      | error e =>
        refine ⟨by dsimp only [test_database]; decide, ?_⟩
        have h1 := strTake50_length e
        dsimp only [test_database]
        rw [String.length_append]
        have h2 : ("⚠️  Connected but Error: ").length ≤ 30 := by decide
        omega

/-- Claim C10: every successful get_stats result satisfies the
invariants that the timeline length equals total_votes, every timeline
entry's score lies in 1-5, and total_score equals the sum over s of
s times counts[str(s)]. -/
theorem C10_invariants (docs : List Record) (st : StatsResult)
    (h : get_stats (some docs) = Except.ok st) :
    st.timeline.length = st.total_votes
    ∧ (∀ e ∈ st.timeline, 1 ≤ e.score ∧ e.score ≤ 5)
    ∧ st.total_score
        = 1 * (cnt st.counts "1" : Int) + 2 * (cnt st.counts "2" : Int)
          + 3 * (cnt st.counts "3" : Int) + 4 * (cnt st.counts "4" : Int)
          + 5 * (cnt st.counts "5" : Int) := by
  obtain ⟨hk, hv, hs, hperm, hsort, hc⟩ := get_stats_spec h
  refine ⟨?_, ?_, ?_⟩
  · rw [hperm.length_eq, length_tlEntryOf, hv]
  · intro e he
    obtain ⟨d, hd, hde⟩ := List.mem_filterMap.mp (hperm.mem_iff.mp he)
    unfold tlEntryOf at hde
    cases hvd : validScore d with
    | none => rw [hvd] at hde; cases hde
    | some s =>
      rw [hvd] at hde
      simp only [Option.map_some'] at hde
      injection hde with hde
      subst hde
      exact validScore_bounds hvd
  · have hall : ∀ x ∈ docs.filterMap validScore, 1 ≤ x ∧ x ≤ 5 :=
      fun x hx => filterMap_validScore_mem hx
    have e1 := hc 1 (by norm_num) (by norm_num)
    have e2 := hc 2 (by norm_num) (by norm_num)
    have e3 := hc 3 (by norm_num) (by norm_num)
    have e4 := hc 4 (by norm_num) (by norm_num)
    have e5 := hc 5 (by norm_num) (by norm_num)
    rw [show toString (1 : Int) = "1" from by decide] at e1
    rw [show toString (2 : Int) = "2" from by decide] at e2
    rw [show toString (3 : Int) = "3" from by decide] at e3
    rw [show toString (4 : Int) = "4" from by decide] at e4
    rw [show toString (5 : Int) = "5" from by decide] at e5
    rw [hs, sum_count_15 _ hall, e1, e2, e3, e4, e5]

/-- Claim C10, witness at a two-record store. -/
theorem C10_witness :
    (⟨[("1", 0), ("2", 1), ("3", 0), ("4", 0), ("5", 1)], 2, 7,
        [⟨"a", 5⟩, ⟨"b", 2⟩]⟩ : StatsResult).timeline.length
      = (⟨[("1", 0), ("2", 1), ("3", 0), ("4", 0), ("5", 1)], 2, 7,
        [⟨"a", 5⟩, ⟨"b", 2⟩]⟩ : StatsResult).total_votes
    ∧ (∀ e ∈ (⟨[("1", 0), ("2", 1), ("3", 0), ("4", 0), ("5", 1)], 2, 7,
        [⟨"a", 5⟩, ⟨"b", 2⟩]⟩ : StatsResult).timeline, 1 ≤ e.score ∧ e.score ≤ 5)
    ∧ (⟨[("1", 0), ("2", 1), ("3", 0), ("4", 0), ("5", 1)], 2, 7,
        [⟨"a", 5⟩, ⟨"b", 2⟩]⟩ : StatsResult).total_score
        = 1 * (cnt [("1", 0), ("2", 1), ("3", 0), ("4", 0), ("5", 1)] "1" : Int)
          + 2 * (cnt [("1", 0), ("2", 1), ("3", 0), ("4", 0), ("5", 1)] "2" : Int)
          + 3 * (cnt [("1", 0), ("2", 1), ("3", 0), ("4", 0), ("5", 1)] "3" : Int)
          + 4 * (cnt [("1", 0), ("2", 1), ("3", 0), ("4", 0), ("5", 1)] "4" : Int)
          + 5 * (cnt [("1", 0), ("2", 1), ("3", 0), ("4", 0), ("5", 1)] "5" : Int) :=
  C10_invariants
    [⟨some (PyVal.pyInt 2), some (PyVal.pyStr "b"), Option.none⟩,
      ⟨some (PyVal.pyInt 5), some (PyVal.pyStr "a"), Option.none⟩]
    _ (by decide)
